import Mathlib

/-!
Verification of the authentication and pagination core of the
agri-management REST API (Go).  The JWT manager (pkg/auth), the
authentication middleware, the password helpers and the pagination
helpers (internal/utils, internal/middleware) and the finance
transaction handlers (internal/handlers) are embedded shallowly:
machine time is represented as Unix seconds (Int), Go errors as an
explicit error type, and the HMAC primitive of the jwt library as an
ideal (collision-free) MAC, following the documented semantics of
golang-jwt/v5 with zero leeway: a token passes the temporal checks
iff notBefore <= now < expiresAt.
-/

/-- JWT token claims: struct Claims of pkg/auth (user_id, email, role plus
the registered claims exp, iat, nbf, iss, sub, jti). -/
structure Claims where
  userID : String
  email : String
  role : String
  expiresAt : Int
  issuedAt : Int
  notBefore : Int
  issuer : String
  subject : String
  ID : String
deriving Repr, DecidableEq

/-- Signing algorithm named by the token header. -/
inductive SigningMethod where
  | HS256
  | HS384
  | HS512
  | RS256
  | ES256
  | NoneAlg
deriving Repr, DecidableEq

/-- The symmetric HMAC family accepted by the keyfunc of ValidateToken
(the type assertion on jwt.SigningMethodHMAC). -/
def SigningMethod.isHMAC : SigningMethod → Bool
  | .HS256 => true
  | .HS384 => true
  | .HS512 => true
  | _ => false

/-- An HMAC signature value, modelled as the ideal MAC: the triple of the
algorithm, the key and the signed payload.  Two signatures agree exactly
when algorithm, key and payload all agree (ideal collision freeness). -/
structure MacValue where
  method : SigningMethod
  key : String
  payload : Claims
deriving Repr, DecidableEq

/-- Signing a payload with a key under an algorithm (ideal MAC). -/
def hmacSign (key : String) (method : SigningMethod) (payload : Claims) : MacValue :=
  { method := method, key := key, payload := payload }

/-- A parsed JWT: header algorithm, payload claims and signature.
A genuinely signed token has sig = hmacSign key method claims. -/
structure Token where
  method : SigningMethod
  claims : Claims
  sig : MacValue
deriving Repr, DecidableEq

/-- JWTManager of pkg/auth: symmetric secret and token lifetime (seconds). -/
structure JWTManager where
  secretKey : String
  tokenDuration : Int
deriving Repr, DecidableEq

/-- The manager built by NewJWTManager with no environment overrides:
secret "default-secret-key", duration 24h = 86400 s. -/
def defaultJWTManager : JWTManager :=
  { secretKey := "default-secret-key", tokenDuration := 86400 }

/-- Error outcomes of the jwt library calls made by pkg/auth. -/
inductive JWTError where
  | unexpectedSigningMethod
  | signatureInvalid
  | tokenExpired
  | tokenNotValidYet
  | malformedToken
  | stillValid
deriving Repr, DecidableEq

/-- GenerateToken of pkg/auth: claims with exp = now + duration,
iat = nbf = now, fixed issuer, subject = userID, fresh jti, signed
with HS256 under the manager secret. -/
def JWTManager.GenerateToken (j : JWTManager) (now : Int)
    (userID email role jti : String) : Token :=
  let claims : Claims :=
    { userID := userID
      email := email
      role := role
      expiresAt := now + j.tokenDuration
      issuedAt := now
      notBefore := now
      issuer := "agri-management-api"
      subject := userID
      ID := jti }
  { method := .HS256, claims := claims, sig := hmacSign j.secretKey .HS256 claims }

/-- ValidateToken of pkg/auth: the keyfunc rejects non-HMAC header
algorithms, then the jwt library verifies the signature against the
secret and validates exp (valid iff now < exp, zero leeway) and nbf
(valid iff nbf <= now); iat is not validated by default in v5. -/
def JWTManager.ValidateToken (j : JWTManager) (now : Int) (t : Token) :
    Except JWTError Claims :=
  if ¬ t.method.isHMAC then .error .unexpectedSigningMethod
  else if t.sig ≠ hmacSign j.secretKey t.method t.claims then .error .signatureInvalid
  else if ¬ now < t.claims.expiresAt then .error .tokenExpired
  else if now < t.claims.notBefore then .error .tokenNotValidYet
  else .ok t.claims

/-- RefreshToken of pkg/auth: validate, reject while more than 15 min
(900 s) remain before expiry, otherwise issue a fresh token for the
same userID, email and role. -/
def JWTManager.RefreshToken (j : JWTManager) (now : Int) (t : Token)
    (jti : String) : Except JWTError Token :=
  match j.ValidateToken now t with
  | .error e => .error e
  | .ok claims =>
    if 900 < claims.expiresAt - now then .error .stillValid
    else .ok (j.GenerateToken now claims.userID claims.email claims.role jti)

/-- Helper: a freshly generated token validates at its issue time whenever
the configured duration is positive. -/
lemma validateToken_generateToken (j : JWTManager) (h : 0 < j.tokenDuration)
    (userID email role jti : String) (now : Int) :
    j.ValidateToken now (j.GenerateToken now userID email role jti)
      = .ok (j.GenerateToken now userID email role jti).claims := by
  simp only [JWTManager.ValidateToken, JWTManager.GenerateToken, hmacSign,
    SigningMethod.isHMAC]
  simp only [Bool.not_true, if_false, ne_eq, not_true_eq_false, reduceIte]
  have hexp : now < now + j.tokenDuration := by omega
  have hnbf : ¬ now < now := by omega
  simp [hexp, hnbf]

/-- C1: validating a token freshly issued for a (userID, email, role)
triple succeeds and the returned claims carry exactly those inputs. -/
theorem validate_generate_roundtrip (j : JWTManager) (h : 0 < j.tokenDuration)
    (userID email role jti : String) (now : Int) :
    ∃ c : Claims,
      j.ValidateToken now (j.GenerateToken now userID email role jti) = .ok c
        ∧ c.userID = userID ∧ c.email = email ∧ c.role = role :=
  ⟨(j.GenerateToken now userID email role jti).claims,
   validateToken_generateToken j h userID email role jti now, rfl, rfl, rfl⟩

/-- Witness for C1 at a concrete manager and triple. -/
theorem validate_generate_roundtrip_witness :
    0 < defaultJWTManager.tokenDuration ∧
      ∃ c : Claims,
        defaultJWTManager.ValidateToken 0
            (defaultJWTManager.GenerateToken 0 "u1" "alice@example.com" "farmer" "jti1") = .ok c
          ∧ c.userID = "u1" ∧ c.email = "alice@example.com" ∧ c.role = "farmer" :=
  ⟨by decide,
   validate_generate_roundtrip defaultJWTManager (by decide)
     "u1" "alice@example.com" "farmer" "jti1" 0⟩

/-- A token at the expiry boundary: genuinely signed under the default
secret, not-before 0, expiry 100. -/
def boundaryClaims : Claims :=
  { userID := "u1", email := "alice@example.com", role := "farmer"
    expiresAt := 100, issuedAt := 0, notBefore := 0
    issuer := "agri-management-api", subject := "u1", ID := "jti1" }

/-- The boundary token, signed with the configured secret under HS256. -/
def boundaryToken : Token :=
  { method := .HS256, claims := boundaryClaims
    sig := hmacSign defaultJWTManager.secretKey .HS256 boundaryClaims }

/-- C2 counterexample: at a time exactly equal to the expiry timestamp the
closed-interval reading of the claim demands success, but ValidateToken
rejects the token as expired: the signature verifies against the server
secret and now = 100 lies in the closed interval from notBefore = 0 to
expiresAt = 100, yet validation errors. -/
theorem validate_closed_interval_counterexample :
    boundaryToken.sig
        = hmacSign defaultJWTManager.secretKey boundaryToken.method boundaryToken.claims
      ∧ boundaryToken.claims.notBefore ≤ 100
      ∧ (100 : Int) ≤ boundaryToken.claims.expiresAt
      ∧ defaultJWTManager.ValidateToken 100 boundaryToken = .error .tokenExpired := by
  exact ⟨rfl, by decide, by decide, rfl⟩

/-- C2 amended: ValidateToken succeeds exactly when the header algorithm is
in the HMAC family, the signature verifies against the server secret, and
the current time lies in the half-open interval from notBefore (inclusive)
to expiresAt (exclusive); in particular validation fails at a time exactly
equal to the expiry timestamp and at any later time. -/
theorem validate_iff_signature_and_window (j : JWTManager) (now : Int) (t : Token) :
    ((∃ c, j.ValidateToken now t = .ok c) ↔
      (t.method.isHMAC = true
        ∧ t.sig = hmacSign j.secretKey t.method t.claims
        ∧ t.claims.notBefore ≤ now ∧ now < t.claims.expiresAt))
      ∧ (t.claims.expiresAt ≤ now → ∀ c, j.ValidateToken now t ≠ .ok c) := by
  constructor
  · constructor
    · intro ⟨c, hc⟩
      by_cases h1 : t.method.isHMAC
      · by_cases h2 : t.sig = hmacSign j.secretKey t.method t.claims
        · by_cases h3 : now < t.claims.expiresAt
          · by_cases h4 : now < t.claims.notBefore
            · simp [JWTManager.ValidateToken, h1, h2, h3, h4] at hc
            · exact ⟨h1, h2, by omega, h3⟩
          · simp [JWTManager.ValidateToken, h1, h2, h3] at hc
        · simp [JWTManager.ValidateToken, h1, h2] at hc
      · simp [JWTManager.ValidateToken, h1] at hc
    · intro ⟨h1, h2, h3, h4⟩
      have h5 : ¬ now < t.claims.notBefore := by omega
      exact ⟨t.claims, by simp [JWTManager.ValidateToken, h1, h2, h4, h5]⟩
  · intro hlate c hc
    have h3 : ¬ now < t.claims.expiresAt := by omega
    by_cases h1 : t.method.isHMAC
    · by_cases h2 : t.sig = hmacSign j.secretKey t.method t.claims
      · simp [JWTManager.ValidateToken, h1, h2, h3] at hc
      · simp [JWTManager.ValidateToken, h1, h2] at hc
    · simp [JWTManager.ValidateToken, h1] at hc

/-- Witness for C2 as amended: the boundary token is accepted 50 s before
expiry and rejected 50 s after it. -/
theorem validate_iff_signature_and_window_witness :
    (∃ c, defaultJWTManager.ValidateToken 50 boundaryToken = .ok c)
      ∧ boundaryToken.claims.expiresAt ≤ 150
      ∧ ∀ c, defaultJWTManager.ValidateToken 150 boundaryToken ≠ .ok c :=
  ⟨(validate_iff_signature_and_window defaultJWTManager 50 boundaryToken).1.mpr
     ⟨rfl, rfl, by decide, by decide⟩,
   by decide,
   (validate_iff_signature_and_window defaultJWTManager 150 boundaryToken).2
     (by decide)⟩

/-- C4: a structurally well-formed token signed with a secret different from
the validator secret, or whose header names an algorithm outside the HMAC
family, is rejected by ValidateToken. -/
theorem validate_rejects_wrong_secret_or_alg (j : JWTManager) (now : Int)
    (t : Token) (s : String)
    (h : (t.sig = hmacSign s t.method t.claims ∧ s ≠ j.secretKey)
          ∨ t.method.isHMAC = false) :
    ∃ e, j.ValidateToken now t = .error e := by
  rcases h with ⟨hsig, hne⟩ | halg
  · by_cases h1 : t.method.isHMAC
    · refine ⟨.signatureInvalid, ?_⟩
      have h2 : t.sig ≠ hmacSign j.secretKey t.method t.claims := by
        rw [hsig]
        intro hEq
        exact hne (congrArg MacValue.key hEq)
      simp [JWTManager.ValidateToken, h1, h2]
    · exact ⟨.unexpectedSigningMethod, by simp [JWTManager.ValidateToken, h1]⟩
  · exact ⟨.unexpectedSigningMethod, by simp [JWTManager.ValidateToken, halg]⟩

/-- Witness for C4: the boundary token was signed with the default secret,
so a manager configured with a different secret rejects it. -/
theorem validate_rejects_wrong_secret_or_alg_witness :
    ((boundaryToken.sig
          = hmacSign "default-secret-key" boundaryToken.method boundaryToken.claims
        ∧ "default-secret-key" ≠ "other-secret")
        ∨ boundaryToken.method.isHMAC = false)
      ∧ ∃ e, JWTManager.ValidateToken
          { secretKey := "other-secret", tokenDuration := 86400 } 50 boundaryToken
            = .error e :=
  ⟨Or.inl ⟨rfl, by decide⟩,
   validate_rejects_wrong_secret_or_alg
     { secretKey := "other-secret", tokenDuration := 86400 } 50 boundaryToken
     "default-secret-key" (Or.inl ⟨rfl, by decide⟩)⟩

/-- C3: for a valid token, RefreshToken errors with the still-valid error
while strictly more than 15 minutes (900 s) remain before expiry, and when
15 minutes or fewer remain it returns a new token carrying the same
subject, email and role with a fresh expiry window, and that new token is
itself valid. -/
theorem refresh_threshold (j : JWTManager) (hdur : 0 < j.tokenDuration)
    (now : Int) (t : Token) (jti : String) (c : Claims)
    (hval : j.ValidateToken now t = .ok c) :
    (900 < c.expiresAt - now → j.RefreshToken now t jti = .error .stillValid)
      ∧ (c.expiresAt - now ≤ 900 →
          ∃ t' : Token, j.RefreshToken now t jti = .ok t'
            ∧ t'.claims.userID = c.userID
            ∧ t'.claims.email = c.email
            ∧ t'.claims.role = c.role
            ∧ t'.claims.subject = c.userID
            ∧ t'.claims.expiresAt = now + j.tokenDuration
            ∧ j.ValidateToken now t' = .ok t'.claims) := by
  constructor
  · intro hgt
    simp [JWTManager.RefreshToken, hval, hgt]
  · intro hle
    have hnot : ¬ 900 < c.expiresAt - now := by omega
    refine ⟨j.GenerateToken now c.userID c.email c.role jti, ?_, rfl, rfl, rfl, rfl, rfl, ?_⟩
    · simp [JWTManager.RefreshToken, hval, hnot]
    · exact validateToken_generateToken j hdur c.userID c.email c.role jti now

/-- Witness for C3 at the boundary token 50 s before its expiry: refresh is
allowed there and the refreshed token validates. -/
theorem refresh_threshold_witness :
    0 < defaultJWTManager.tokenDuration
      ∧ defaultJWTManager.ValidateToken 50 boundaryToken = .ok boundaryClaims
      ∧ boundaryClaims.expiresAt - 50 ≤ 900
      ∧ ∃ t' : Token, defaultJWTManager.RefreshToken 50 boundaryToken "jti2" = .ok t'
          ∧ t'.claims.userID = boundaryClaims.userID
          ∧ t'.claims.email = boundaryClaims.email
          ∧ t'.claims.role = boundaryClaims.role
          ∧ t'.claims.subject = boundaryClaims.userID
          ∧ t'.claims.expiresAt = 50 + defaultJWTManager.tokenDuration
          ∧ defaultJWTManager.ValidateToken 50 t' = .ok t'.claims :=
  ⟨by decide, rfl, by decide,
   (refresh_threshold defaultJWTManager (by decide) 50 boundaryToken "jti2"
      boundaryClaims rfl).2 (by decide)⟩

/-- Split a character list at every occurrence of a separator, keeping
empty segments: the semantics of strings.Split with a one-character
separator. -/
def splitChars (sep : Char) : List Char → List (List Char)
  | [] => [[]]
  | c :: cs =>
    if c = sep then [] :: splitChars sep cs
    else
      match splitChars sep cs with
      | [] => [[c]]
      | h :: t => (c :: h) :: t

/-- strings.Split of Go for a one-character separator: always returns at
least one segment; splitting the empty string yields one empty segment. -/
def goSplit (sep : Char) (s : String) : List String :=
  (splitChars sep s.data).map List.asString

/-- Wire name of a signing algorithm (token header alg field). -/
def encodeAlg : SigningMethod → String
  | .HS256 => "HS256"
  | .HS384 => "HS384"
  | .HS512 => "HS512"
  | .RS256 => "RS256"
  | .ES256 => "ES256"
  | .NoneAlg => "none"

/-- Parse a header algorithm name. -/
def decodeAlg : String → Option SigningMethod
  | "HS256" => some .HS256
  | "HS384" => some .HS384
  | "HS512" => some .HS512
  | "RS256" => some .RS256
  | "ES256" => some .ES256
  | "none" => some .NoneAlg
  | _ => none

/-- Join segments with a separator (semantics of strings.Join). -/
def joinWith (sep : String) : List String → String
  | [] => ""
  | [x] => x
  | x :: xs => x ++ sep ++ joinWith sep xs

/-- Digits of a nonnegative integer in decimal, most significant first;
the first argument is structural fuel, always sufficient at n + 1. -/
def natDecimalAux : Nat → Nat → List Char
  | 0, _ => []
  | fuel + 1, n =>
    if n < 10 then [Char.ofNat (48 + n)]
    else natDecimalAux fuel (n / 10) ++ [Char.ofNat (48 + n % 10)]

/-- Render a nonnegative integer in decimal. -/
def natDecimal (n : Nat) : String :=
  ⟨natDecimalAux (n + 1) n⟩

/-- Render an integer in decimal. -/
def intDecimal (i : Int) : String :=
  if i < 0 then "-" ++ natDecimal (-i).toNat else natDecimal i.toNat

/-- Parse a decimal integer segment. -/
def parseIntSeg (s : String) : Option Int :=
  let signDigits : Bool × List Char :=
    match s.data with
    | '-' :: rest => (true, rest)
    | l => (false, l)
  let ds := signDigits.2
  if ds.isEmpty ∨ ¬ ds.all (fun c => c.isDigit) then none
  else
    let n : Int := ds.foldl (fun a c => a * 10 + ((c.toNat : Int) - 48)) 0
    some (if signDigits.1 then -n else n)

/-- Serialize claims as a payload segment.  Real JWTs carry base64url JSON;
the model separates the fields with a newline, a character absent from the
data exercised here. -/
def encodeClaims (c : Claims) : String :=
  joinWith "\n"
    [c.userID, c.email, c.role, intDecimal c.expiresAt, intDecimal c.issuedAt,
     intDecimal c.notBefore, c.issuer, c.subject, c.ID]

/-- Parse a payload segment back into claims. -/
def decodeClaims (s : String) : Option Claims :=
  match goSplit '\n' s with
  | [u, e, r, x, i, n, iss, sub, tid] =>
    match parseIntSeg x, parseIntSeg i, parseIntSeg n with
    | some exp, some iat, some nbf =>
      some { userID := u, email := e, role := r, expiresAt := exp,
             issuedAt := iat, notBefore := nbf, issuer := iss,
             subject := sub, ID := tid }
    | _, _, _ => none
  | _ => none

/-- Serialize a MAC value as the signature segment. -/
def encodeMac (m : MacValue) : String :=
  encodeAlg m.method ++ "|" ++ m.key ++ "|" ++ encodeClaims m.payload

/-- Parse a signature segment. -/
def decodeMac (s : String) : Option MacValue :=
  match goSplit '|' s with
  | [a, k, p] =>
    match decodeAlg a, decodeClaims p with
    | some m, some c => some { method := m, key := k, payload := c }
    | _, _ => none
  | _ => none

/-- Serialize a token: header, payload and signature segments.  Real JWTs
delimit the three base64url segments with a period; the model uses a tab,
likewise guaranteed absent from the encoded segments exercised here. -/
def encodeToken (t : Token) : String :=
  encodeAlg t.method ++ "\t" ++ encodeClaims t.claims ++ "\t" ++ encodeMac t.sig

/-- Parse a token string; anything that does not split into three decodable
segments is malformed. -/
def decodeToken (s : String) : Option Token :=
  match goSplit '\t' s with
  | [h, p, g] =>
    match decodeAlg h, decodeClaims p, decodeMac g with
    | some m, some c, some v => some { method := m, claims := c, sig := v }
    | _, _, _ => none
  | _ => none

/-- String-level ValidateToken: parse then validate, any parse failure is a
malformed-token error (jwt.ParseWithClaims rejects unparsable input). -/
def JWTManager.ValidateTokenString (j : JWTManager) (now : Int) (s : String) :
    Except JWTError Claims :=
  match decodeToken s with
  | none => .error .malformedToken
  | some t => j.ValidateToken now t

/-- Outcome of the Auth middleware: abort with an HTTP status and error
code, or proceed after storing user_id, user_email and user_role in the
request context. -/
inductive AuthResult where
  | reject (status : Nat) (code : String)
  | proceed (userID email role : String)
deriving Repr, DecidableEq

/-- middleware.Auth: empty Authorization header aborts 401 MISSING_TOKEN;
a header that does not split on spaces into exactly two parts with first
part Bearer aborts 401 INVALID_TOKEN_FORMAT; a token failing validation
aborts 401 INVALID_TOKEN; otherwise the claims fields are attached to the
context and the chain continues.  The validator is the jwtManager built in
the middleware, abstracted as a function argument. -/
def Auth (validate : String → Except JWTError Claims) (authHeader : String) :
    AuthResult :=
  if authHeader = "" then .reject 401 "MISSING_TOKEN"
  else
    let tokenParts := goSplit ' ' authHeader
    if tokenParts.length ≠ 2 ∨ tokenParts.headD "" ≠ "Bearer" then
      .reject 401 "INVALID_TOKEN_FORMAT"
    else
      match validate (tokenParts.getD 1 "") with
      | .error _ => .reject 401 "INVALID_TOKEN"
      | .ok claims => .proceed claims.userID claims.email claims.role

/-- An HTTP response as far as the auth contract is concerned: status,
success flag and error code of the envelope. -/
structure HttpResponse where
  status : Nat
  success : Bool
  errorCode : Option String
deriving Repr, DecidableEq

/-- A protected route: the Auth middleware either aborts with its 401
response or hands the stored identity to the downstream handler. -/
def runProtected (validate : String → Except JWTError Claims)
    (handler : String → String → String → HttpResponse)
    (authHeader : String) : HttpResponse :=
  match Auth validate authHeader with
  | .reject st code => { status := st, success := false, errorCode := some code }
  | .proceed u e r => handler u e r

/-- C5: the Auth middleware answers 401 MISSING_TOKEN on an absent header,
401 INVALID_TOKEN_FORMAT when the header is not a two-part Bearer value,
401 INVALID_TOKEN when validation fails, attaches the validated claims on
success, and on every failure the downstream handler is never invoked:
the protected route yields the middleware 401 envelope regardless of the
handler. -/
theorem auth_middleware_contract (validate : String → Except JWTError Claims)
    (authHeader : String) :
    (authHeader = "" → Auth validate authHeader = .reject 401 "MISSING_TOKEN")
      ∧ (authHeader ≠ "" →
          ((goSplit ' ' authHeader).length ≠ 2
              ∨ (goSplit ' ' authHeader).headD "" ≠ "Bearer") →
          Auth validate authHeader = .reject 401 "INVALID_TOKEN_FORMAT")
      ∧ (authHeader ≠ "" →
          (goSplit ' ' authHeader).length = 2 →
          (goSplit ' ' authHeader).headD "" = "Bearer" →
          ∀ e, validate ((goSplit ' ' authHeader).getD 1 "") = .error e →
          Auth validate authHeader = .reject 401 "INVALID_TOKEN")
      ∧ (authHeader ≠ "" →
          (goSplit ' ' authHeader).length = 2 →
          (goSplit ' ' authHeader).headD "" = "Bearer" →
          ∀ c, validate ((goSplit ' ' authHeader).getD 1 "") = .ok c →
          Auth validate authHeader = .proceed c.userID c.email c.role)
      ∧ (∀ st code, Auth validate authHeader = .reject st code →
          ∀ h₁ h₂ : String → String → String → HttpResponse,
            runProtected validate h₁ authHeader
                = { status := st, success := false, errorCode := some code }
              ∧ runProtected validate h₁ authHeader
                = runProtected validate h₂ authHeader) := by
  refine ⟨?_, ?_, ?_, ?_, ?_⟩
  · intro h
    simp [Auth, h]
  · intro h hbad
    simp only [Auth, if_neg h]
    rw [if_pos hbad]
  · intro h hlen hhead e he
    have hcond : ¬ ((goSplit ' ' authHeader).length ≠ 2
        ∨ (goSplit ' ' authHeader).headD "" ≠ "Bearer") := by
      push_neg
      exact ⟨hlen, hhead⟩
    simp only [Auth, if_neg h]
    rw [if_neg hcond, he]
  · intro h hlen hhead c hc
    have hcond : ¬ ((goSplit ' ' authHeader).length ≠ 2
        ∨ (goSplit ' ' authHeader).headD "" ≠ "Bearer") := by
      push_neg
      exact ⟨hlen, hhead⟩
    simp only [Auth, if_neg h]
    rw [if_neg hcond, hc]
  · intro st code hrej h₁ h₂
    simp [runProtected, hrej]

/-- Witness for C5: the three rejection shapes and the success shape at
concrete headers, via the contract theorem. -/
theorem auth_middleware_contract_witness :
    Auth (fun _ => .error .malformedToken) "" = .reject 401 "MISSING_TOKEN"
      ∧ Auth (fun _ => .error .malformedToken) "Token abc def"
          = .reject 401 "INVALID_TOKEN_FORMAT"
      ∧ Auth (fun _ => .error .malformedToken) "Bearer garbage"
          = .reject 401 "INVALID_TOKEN"
      ∧ Auth (fun _ => .ok boundaryClaims) "Bearer tok"
          = .proceed "u1" "alice@example.com" "farmer"
      ∧ runProtected (fun _ => .error .malformedToken)
            (fun _ _ _ => { status := 200, success := true, errorCode := none }) ""
          = { status := 401, success := false, errorCode := some "MISSING_TOKEN" } :=
  ⟨(auth_middleware_contract (fun _ => .error .malformedToken) "").1 rfl,
   (auth_middleware_contract (fun _ => .error .malformedToken) "Token abc def").2.1
     (by decide) (by decide),
   (auth_middleware_contract (fun _ => .error .malformedToken) "Bearer garbage").2.2.1
     (by decide) (by decide) (by decide) .malformedToken rfl,
   (auth_middleware_contract (fun _ => .ok boundaryClaims) "Bearer tok").2.2.2.1
     (by decide) (by decide) (by decide) boundaryClaims rfl,
   ((auth_middleware_contract (fun _ => .error .malformedToken) "").2.2.2.2 401
       "MISSING_TOKEN" ((auth_middleware_contract (fun _ => .error .malformedToken) "").1 rfl)
       (fun _ _ _ => { status := 200, success := true, errorCode := none })
       (fun _ _ _ => { status := 200, success := true, errorCode := none })).1⟩

/-- A stored password hash.  Modelled from the spec: the bcrypt primitive
of golang.org/x/crypto is not part of this repository; following the spec
(Hash applies a salted one-way hash with work factor 14, Verify recomputes
and compares, returning false on any mismatch including a malformed stored
hash) it is embedded as an ideal collision-free salted KDF whose digest is
the pair of the salt and the password. -/
inductive StoredHash where
  | bcryptHash (cost : Nat) (salt : String) (digest : String × String)
  | malformed (raw : String)
deriving Repr, DecidableEq

/-- bcrypt.GenerateFromPassword under the ideal-KDF model: a fresh salt is
drawn by the library, so it appears as an argument. -/
def bcryptGenerateFromPassword (password : String) (cost : Nat) (salt : String) :
    StoredHash :=
  .bcryptHash cost salt (salt, password)

/-- bcrypt.CompareHashAndPassword under the ideal-KDF model: parse the
stored hash, recompute the digest from its salt and the candidate, and
compare; a malformed stored hash never matches. -/
def bcryptCompareHashAndPassword (hash : StoredHash) (password : String) : Bool :=
  match hash with
  | .bcryptHash _ salt digest => digest = (salt, password)
  | .malformed _ => false

/-- HashPassword of internal/utils: bcrypt with cost 14. -/
def HashPassword (password : String) (salt : String) : StoredHash :=
  bcryptGenerateFromPassword password 14 salt

/-- CheckPassword of internal/utils: true exactly when the comparison
returns no error. -/
def CheckPassword (password : String) (hash : StoredHash) : Bool :=
  bcryptCompareHashAndPassword hash password

/-- C6: verifying a plaintext against its own hash succeeds for every
plaintext; verifying against the hash of a different plaintext fails; and
CheckPassword is a total Boolean function that answers false, rather than
erroring, on a malformed stored hash. -/
theorem checkPassword_hashPassword (pw pw' salt salt' raw : String) :
    CheckPassword pw (HashPassword pw salt) = true
      ∧ (pw ≠ pw' → CheckPassword pw (HashPassword pw' salt') = false)
      ∧ CheckPassword pw (.malformed raw) = false := by
  refine ⟨?_, ?_, rfl⟩
  · simp [CheckPassword, HashPassword, bcryptGenerateFromPassword,
      bcryptCompareHashAndPassword]
  · intro hne
    simp [CheckPassword, HashPassword, bcryptGenerateFromPassword,
      bcryptCompareHashAndPassword]
    intro h
    exact absurd h.symm hne

/-- Witness for C6 at concrete plaintexts and salts. -/
theorem checkPassword_hashPassword_witness :
    CheckPassword "secret123" (HashPassword "secret123" "s1") = true
      ∧ ("secret123" : String) ≠ "hunter2"
      ∧ CheckPassword "secret123" (HashPassword "hunter2" "s1") = false
      ∧ CheckPassword "secret123" (.malformed "not-a-bcrypt-hash") = false :=
  ⟨(checkPassword_hashPassword "secret123" "hunter2" "s1" "s1" "not-a-bcrypt-hash").1,
   by decide,
   (checkPassword_hashPassword "secret123" "hunter2" "s1" "s1" "not-a-bcrypt-hash").2.1
     (by decide),
   (checkPassword_hashPassword "secret123" "hunter2" "s1" "s1" "not-a-bcrypt-hash").2.2⟩

/-- models.Pagination. -/
structure Pagination where
  page : Int
  limit : Int
  total : Int
  totalPages : Int
deriving Repr, DecidableEq

/-- CalculatePagination of internal/utils: totalPages is the Go integer
division (total + limit - 1) / limit, clamped below by 1.  Go division on
int truncates toward zero (Int.tdiv). -/
def CalculatePagination (page limit total : Int) : Pagination :=
  let totalPages := Int.tdiv (total + limit - 1) limit
  { page := page, limit := limit, total := total
    totalPages := if totalPages < 1 then 1 else totalPages }

/-- The offset computed by the paginated list handlers, e.g.
FinanceHandler.GetTransactions: offset := (page - 1) * limit. -/
def transactionsOffset (page limit : Int) : Int :=
  (page - 1) * limit

/-- Spec-side definition, following the words of the claim: the ceiling of
total / limit, written as the negated floor of the negation (Euclidean
division by a positive divisor is floor division). -/
def ceilDivSpec (a b : Int) : Int :=
  -((-a) / b)

/-- Helper: for a nonnegative dividend and positive divisor the Go rounding
formula (a + b - 1) div b computes the ceiling of a / b. -/
lemma tdiv_ceil_formula (a b : Int) (hb : 0 < b) (ha : 0 ≤ a) :
    Int.tdiv (a + b - 1) b = ceilDivSpec a b := by
  have hbne : b ≠ 0 := by omega
  have hr0 : 0 ≤ (-a) % b := Int.emod_nonneg (-a) hbne
  have hrb : (-a) % b < b := Int.emod_lt_of_pos (-a) hb
  have hde : b * ((-a) / b) + (-a) % b = -a := Int.ediv_add_emod (-a) b
  rw [Int.tdiv_eq_ediv (by omega) (by omega)]
  have hrw : a + b - 1 = (b - 1 - (-a) % b) + (-((-a) / b)) * b := by
    linear_combination hde
  rw [hrw, Int.add_mul_ediv_right _ _ hbne,
    Int.ediv_eq_zero_of_lt (by omega) (by omega)]
  simp [ceilDivSpec]

/-- C8 counterexample: with zero total rows the code clamps totalPages to 1
while the ceiling of 0 / 10 is 0, so totalPages differs from
ceil(total / limit) at an input the list handlers produce (an empty
result set under the default limit). -/
theorem totalPages_ceil_counterexample :
    (CalculatePagination 1 10 0).totalPages = 1
      ∧ ceilDivSpec 0 10 = 0
      ∧ (CalculatePagination 1 10 0).totalPages ≠ ceilDivSpec 0 10 := by
  refine ⟨rfl, rfl, ?_⟩
  decide

/-- C8 amended: for the values the list handlers use (limit at least 1,
total a nonnegative row count) the offset is (page - 1) * limit and
totalPages is ceil(total / limit) clamped below by 1; the clamp only
matters at total = 0, where the code reports 1 page. -/
theorem pagination_math (page limit total : Int)
    (hl : 1 ≤ limit) (ht : 0 ≤ total) :
    transactionsOffset page limit = (page - 1) * limit
      ∧ (CalculatePagination page limit total).page = page
      ∧ (CalculatePagination page limit total).limit = limit
      ∧ (CalculatePagination page limit total).total = total
      ∧ (CalculatePagination page limit total).totalPages
          = max 1 (ceilDivSpec total limit) := by
  refine ⟨rfl, rfl, rfl, rfl, ?_⟩
  have hceil := tdiv_ceil_formula total limit (by omega) ht
  simp only [CalculatePagination]
  rw [hceil]
  rcases le_or_lt 1 (ceilDivSpec total limit) with h | h
  · rw [if_neg (by omega), max_eq_right h]
  · rw [if_pos h, max_eq_left (by omega)]

/-- Witness for C8 at page 2, limit 10, total 25: offset 10, 3 pages. -/
theorem pagination_math_witness :
    (1 : Int) ≤ 10 ∧ (0 : Int) ≤ 25
      ∧ transactionsOffset 2 10 = 10
      ∧ (CalculatePagination 2 10 25).totalPages = 3 := by
  have h := pagination_math 2 10 25 (by decide) (by decide)
  exact ⟨by decide, by decide, h.1.trans (by decide), h.2.2.2.2.trans (by decide)⟩

/-- Result of Go strconv.Atoi with the error discarded, as the handlers do
with page, _ = strconv.Atoi(pageStr): an optional sign followed only by
digits parses as a base-10 integer, any syntax error yields 0, and a
numeral outside the 64-bit range saturates to the extreme int64 value
(strconv.ParseInt returns the maximum magnitude integer on a range
error). -/
def goAtoi (s : String) : Int :=
  let signDigits : Bool × List Char :=
    match s.data with
    | '-' :: rest => (true, rest)
    | '+' :: rest => (false, rest)
    | l => (false, l)
  let neg := signDigits.1
  let digits := signDigits.2
  if digits.isEmpty ∨ ¬ digits.all (fun c => c.isDigit) then 0
  else
    let n : Int := digits.foldl (fun a c => a * 10 + ((c.toNat : Int) - 48)) 0
    if neg then
      if 2 ^ 63 < n then -(2 ^ 63) else -n
    else
      if 2 ^ 63 - 1 < n then 2 ^ 63 - 1 else n

/-- ParsePagination of internal/utils: the page and limit query parameters
default to "1" and "10" when absent (DefaultQuery), are parsed with Atoi
ignoring the error, then page is clamped below by 1 and limit is replaced
by 10 when outside 1..100. -/
def ParsePagination (pageStr limitStr : Option String) : Int × Int :=
  let page := goAtoi (pageStr.getD "1")
  let limit := goAtoi (limitStr.getD "10")
  let page := if page < 1 then 1 else page
  let limit := if limit < 1 ∨ 100 < limit then 10 else limit
  (page, limit)

/-- Helper: what the two range checks of ParsePagination guarantee. -/
lemma parse_clamp (p l : Int) :
    1 ≤ (if p < 1 then 1 else p)
      ∧ 1 ≤ (if l < 1 ∨ 100 < l then 10 else l)
      ∧ (if l < 1 ∨ 100 < l then 10 else l) ≤ 100
      ∧ (p < 1 → (if p < 1 then 1 else p) = 1)
      ∧ ((l < 1 ∨ 100 < l) → (if l < 1 ∨ 100 < l then 10 else l) = 10) := by
  refine ⟨?_, ?_, ?_, ?_, ?_⟩
  · split <;> omega
  · split <;> omega
  · split <;> omega
  · intro h
    rw [if_pos h]
  · intro h
    rw [if_pos h]

/-- C10 counterexample: a page parameter just beyond the int64 range is not
substituted by 1: Atoi saturates it to 9223372036854775807 and the check
page below 1 leaves that value in place. -/
theorem parsePagination_overflow_counterexample :
    (ParsePagination (some "9223372036854775808") none).1 = 9223372036854775807
      ∧ (ParsePagination (some "9223372036854775808") none).1 ≠ 1 := by
  refine ⟨by decide, by decide⟩

/-- C10 amended: for every pair of query inputs ParsePagination returns a
page of at least 1 and a limit between 1 and 100; an unparsable or
nonpositive page becomes 1 and a limit outside 1..100 (including every
unparsable or overflowing one) becomes 10; however a page numeral beyond
the int64 range saturates to 9223372036854775807 instead of becoming 1. -/
theorem parsePagination_bounds (pageStr limitStr : Option String) :
    1 ≤ (ParsePagination pageStr limitStr).1
      ∧ 1 ≤ (ParsePagination pageStr limitStr).2
      ∧ (ParsePagination pageStr limitStr).2 ≤ 100
      ∧ (goAtoi (pageStr.getD "1") < 1 → (ParsePagination pageStr limitStr).1 = 1)
      ∧ ((goAtoi (limitStr.getD "10") < 1 ∨ 100 < goAtoi (limitStr.getD "10")) →
          (ParsePagination pageStr limitStr).2 = 10) := by
  have h := parse_clamp (goAtoi (pageStr.getD "1")) (goAtoi (limitStr.getD "10"))
  exact ⟨h.1, h.2.1, h.2.2.1, h.2.2.2.1, h.2.2.2.2⟩

/-- Witness for C10: an unparsable page and an over-range limit fall back
to the defaults 1 and 10. -/
theorem parsePagination_bounds_witness :
    goAtoi "abc" < 1 ∧ (100 : Int) < goAtoi "500"
      ∧ (ParsePagination (some "abc") (some "500")).1 = 1
      ∧ (ParsePagination (some "abc") (some "500")).2 = 10 :=
  ⟨by decide, by decide,
   (parsePagination_bounds (some "abc") (some "500")).2.2.2.1 (by decide),
   (parsePagination_bounds (some "abc") (some "500")).2.2.2.2 (Or.inr (by decide))⟩

/-- The mutable columns of a transactions row (models.Transaction minus
keys and timestamps).  The REAL amount column is carried as its stored
numeric value; none of the modelled operations computes with it. -/
structure TxPayload where
  type : String
  category : String
  description : String
  amount : Int
  currency : String
  date : String
  status : String
  paymentMethod : String
  receipt : String
  notes : String
deriving Repr, DecidableEq

/-- A row of the transactions table. -/
structure TxRow where
  id : String
  userID : String
  payload : TxPayload
  createdAt : Int
  updatedAt : Int
deriving Repr, DecidableEq

/-- FinanceHandler.GetTransaction: SELECT ... WHERE id = ? AND user_id = ?;
none models sql.ErrNoRows, which the handler turns into a 404
TRANSACTION_NOT_FOUND response. -/
def getTransaction (db : List TxRow) (tid uid : String) : Option TxRow :=
  db.find? (fun r => r.id == tid && r.userID == uid)

/-- FinanceHandler.UpdateTransaction: UPDATE ... SET (all payload columns),
updated_at WHERE id = ? AND user_id = ?. -/
def updateTransaction (db : List TxRow) (tid uid : String) (p : TxPayload)
    (now : Int) : List TxRow :=
  db.map (fun r =>
    if r.id == tid && r.userID == uid then
      { r with payload := p, updatedAt := now }
    else r)

/-- FinanceHandler.DeleteTransaction: DELETE ... WHERE id = ? AND
user_id = ?, returning the remaining table and the affected row count;
zero affected rows yield the 404 TRANSACTION_NOT_FOUND response. -/
def deleteTransaction (db : List TxRow) (tid uid : String) :
    List TxRow × Nat :=
  ((db.filter fun r => !(r.id == tid && r.userID == uid)),
   (db.filter fun r => r.id == tid && r.userID == uid).length)

/-- C9: every transaction operation filters by both the row id and the
authenticated user id: a fetched row belongs to the requesting user; rows
of any other user survive update and delete untouched; a delete only
removes rows of the requesting user; and when no row matches both filters
the three operations behave exactly as if the row did not exist (fetch
finds nothing, update rewrites nothing, delete affects zero rows). -/
theorem transactions_user_scoped (db : List TxRow) (tid uid : String)
    (p : TxPayload) (now : Int) :
    (∀ r, getTransaction db tid uid = some r → r.userID = uid)
      ∧ (∀ r ∈ db, r.userID ≠ uid →
          r ∈ updateTransaction db tid uid p now
            ∧ r ∈ (deleteTransaction db tid uid).1)
      ∧ (∀ r ∈ db, r ∉ (deleteTransaction db tid uid).1 →
          r.id = tid ∧ r.userID = uid)
      ∧ ((∀ r ∈ db, ¬ (r.id = tid ∧ r.userID = uid)) →
          getTransaction db tid uid = none
            ∧ updateTransaction db tid uid p now = db
            ∧ deleteTransaction db tid uid = (db, 0)) := by
  refine ⟨?_, ?_, ?_, ?_⟩
  · intro r hr
    have h := List.find?_some hr
    simp only [Bool.and_eq_true, beq_iff_eq] at h
    exact h.2
  · intro r hr hne
    have hcond : (r.id == tid && r.userID == uid) = false := by
      simp [hne]
    constructor
    · have hmem := List.mem_map_of_mem (fun r : TxRow =>
          if r.id == tid && r.userID == uid then
            { r with payload := p, updatedAt := now }
          else r) hr
      simp only [hcond, Bool.false_eq_true, if_false] at hmem
      exact hmem
    · simp only [deleteTransaction, List.mem_filter]
      exact ⟨hr, by simp [hcond]⟩
  · intro r hr hnot
    by_contra hcon
    apply hnot
    simp only [deleteTransaction, List.mem_filter]
    refine ⟨hr, ?_⟩
    simp only [Bool.not_eq_true', Bool.and_eq_false_iff, beq_eq_false_iff_ne, ne_eq]
    tauto
  · intro hall
    refine ⟨?_, ?_, ?_⟩
    · apply List.find?_eq_none.mpr
      intro r hr
      have := hall r hr
      simp only [Bool.and_eq_true, beq_iff_eq]
      tauto
    · have : ∀ r ∈ db, (fun r : TxRow =>
          if r.id == tid && r.userID == uid then
            { r with payload := p, updatedAt := now }
          else r) r = id r := by
        intro r hr
        have := hall r hr
        have hcond : (r.id == tid && r.userID == uid) = false := by
          simp only [Bool.and_eq_false_iff, beq_eq_false_iff_ne, ne_eq]
          tauto
        simp [hcond]
      simp only [updateTransaction]
      rw [List.map_congr_left this, List.map_id]
    · have hkeep : ∀ r ∈ db, (!(r.id == tid && r.userID == uid)) = true := by
        intro r hr
        have := hall r hr
        simp only [Bool.not_eq_true', Bool.and_eq_false_iff, beq_eq_false_iff_ne, ne_eq]
        tauto
      have hdrop : db.filter (fun r => r.id == tid && r.userID == uid) = [] := by
        apply List.filter_eq_nil_iff.mpr
        intro r hr
        have := hall r hr
        simp only [Bool.and_eq_true, beq_iff_eq]
        tauto
      simp only [deleteTransaction]
      rw [List.filter_eq_self.mpr hkeep, hdrop]
      rfl

/-- A sample payload for the transaction table witnesses. -/
def samplePayload : TxPayload :=
  { type := "income", category := "Sales", description := "milk"
    amount := 100, currency := "TRY", date := "2024-01-01"
    status := "completed", paymentMethod := "cash", receipt := "", notes := "" }

/-- A transaction row owned by alice. -/
def aliceRow : TxRow :=
  { id := "t1", userID := "alice", payload := samplePayload
    createdAt := 0, updatedAt := 0 }

/-- A transaction row owned by bob. -/
def bobRow : TxRow :=
  { id := "t2", userID := "bob", payload := samplePayload
    createdAt := 0, updatedAt := 0 }

/-- A two-user transactions table. -/
def txTable : List TxRow := [aliceRow, bobRow]

/-- Witness for C9: alice requesting the transaction id owned by bob sees
the not-found behaviour, and the row of bob survives her update and
delete attempts unchanged. -/
theorem transactions_user_scoped_witness :
    bobRow ∈ txTable ∧ bobRow.userID ≠ "alice"
      ∧ bobRow ∈ updateTransaction txTable "t2" "alice" samplePayload 5
      ∧ bobRow ∈ (deleteTransaction txTable "t2" "alice").1
      ∧ getTransaction txTable "t2" "alice" = none
      ∧ updateTransaction txTable "t2" "alice" samplePayload 5 = txTable
      ∧ deleteTransaction txTable "t2" "alice" = (txTable, 0) := by
  have h := transactions_user_scoped txTable "t2" "alice" samplePayload 5
  have hmem : bobRow ∈ txTable := by decide
  have hne : bobRow.userID ≠ "alice" := by decide
  have hall : ∀ r ∈ txTable, ¬ (r.id = "t2" ∧ r.userID = "alice") := by decide
  exact ⟨hmem, hne, (h.2.1 bobRow hmem hne).1, (h.2.1 bobRow hmem hne).2,
    (h.2.2.2 hall).1, (h.2.2.2 hall).2.1, (h.2.2.2 hall).2.2⟩

/-- models.RegisterRequest: the JSON body of POST /auth/register. -/
structure RegisterRequest where
  name : String
  email : String
  password : String
  confirmPassword : String
  farmName : String
  location : String
deriving Repr, DecidableEq

/-- The gin binding validation on RegisterRequest: every field is required,
the password needs at least 6 characters, and the email must be
well-formed (the full e-mail grammar of the validator is abstracted to the
presence of an at sign, which the concrete scenario satisfies). -/
def bindingValid (req : RegisterRequest) : Bool :=
  req.name != "" && req.email != "" && req.email.data.contains '@'
    && req.password != "" && decide (6 ≤ req.password.length)
    && req.confirmPassword != "" && req.farmName != "" && req.location != ""

/-- Outcome of AuthHandler.Register as observable over HTTP. -/
structure RegisterResult where
  status : Nat
  success : Bool
  errorCode : Option String
  token : Option Token
  refreshToken : Option Token
  userID : Option String
deriving Repr, DecidableEq

/-- AuthHandler.Register: bind and validate the JSON body, reject a
password mismatch with 400 PASSWORD_MISMATCH, reject an already-used email
with 409 EMAIL_EXISTS, then hash the password, insert the user with role
farmer, issue an access and a refresh token for (newID, email, farmer),
and respond through SuccessResponse — which always sends HTTP 200, even
though the swagger annotation on the handler declares 201.  The fresh
user id and the two fresh token ids are drawn by the handler, so they
appear as arguments. -/
def Register (existingEmails : List String) (req : RegisterRequest)
    (j : JWTManager) (now : Int) (newID jti1 jti2 : String) : RegisterResult :=
  if ¬ bindingValid req then
    { status := 400, success := false, errorCode := some "INVALID_REQUEST"
      token := none, refreshToken := none, userID := none }
  else if req.password ≠ req.confirmPassword then
    { status := 400, success := false, errorCode := some "PASSWORD_MISMATCH"
      token := none, refreshToken := none, userID := none }
  else if req.email ∈ existingEmails then
    { status := 409, success := false, errorCode := some "EMAIL_EXISTS"
      token := none, refreshToken := none, userID := none }
  else
    { status := 200, success := true, errorCode := none
      token := some (j.GenerateToken now newID req.email "farmer" jti1)
      refreshToken := some (j.GenerateToken now newID req.email "farmer" jti2)
      userID := some newID }

/-- The registration request of the end-to-end scenario. -/
def aliceReq : RegisterRequest :=
  { name := "Alice", email := "alice@example.com", password := "secret123"
    confirmPassword := "secret123", farmName := "Farm", location := "Ankara" }

/-- The access token issued to alice at registration time 0 under the
default manager. -/
def aliceToken : Token :=
  defaultJWTManager.GenerateToken 0 "alice-id" "alice@example.com" "farmer" "jti1"

/-- C7: the end-to-end registration scenario.  Registration of a fresh
email with matching passwords succeeds and returns the token, the
protected endpoint called with that token proceeds with the identity of
alice, a missing Authorization header yields 401 MISSING_TOKEN and Bearer
garbage yields 401 INVALID_TOKEN — but the success response status is 200,
not the 201 declared by the swagger annotation of the handler and expected
by the spec, because the handler answers through SuccessResponse which
hard-codes http.StatusOK. -/
theorem register_scenario :
    (Register [] aliceReq defaultJWTManager 0 "alice-id" "jti1" "jti2").success = true
      ∧ (Register [] aliceReq defaultJWTManager 0 "alice-id" "jti1" "jti2").userID
          = some "alice-id"
      ∧ (Register [] aliceReq defaultJWTManager 0 "alice-id" "jti1" "jti2").token
          = some aliceToken
      ∧ (Register [] aliceReq defaultJWTManager 0 "alice-id" "jti1" "jti2").status = 200
      ∧ (Register [] aliceReq defaultJWTManager 0 "alice-id" "jti1" "jti2").status ≠ 201
      ∧ Auth (defaultJWTManager.ValidateTokenString 0)
            ("Bearer " ++ encodeToken aliceToken)
          = .proceed "alice-id" "alice@example.com" "farmer"
      ∧ Auth (defaultJWTManager.ValidateTokenString 0) ""
          = .reject 401 "MISSING_TOKEN"
      ∧ Auth (defaultJWTManager.ValidateTokenString 0) "Bearer garbage"
          = .reject 401 "INVALID_TOKEN" := by
  set_option maxRecDepth 40000 in
  refine ⟨rfl, rfl, rfl, rfl, by decide, by decide, rfl, by decide⟩
